import Mathlib

/-!
Verification of the frame-resource ring of the Vulkan-test repository.

The development shallowly embeds the two source files
`src/vulkan_render/frame_manager.rs` and
`src/vulkan_render/graphics_pipeline.rs`.  Device-side objects
(semaphores, samplers, descriptor sets, GPU memory) are opaque external
handles with no claim-relevant state; they are omitted from the embedded
records, with a comment at each omission.  Floating-point vector math
(the `glm` crate) is embedded over the real numbers.
-/

/-- Device properties consumed by the frame manager.  The real
`DeviceInfo` also carries the logical device, command pool and queue
handles, which are opaque external objects. -/
structure DeviceInfo where
  min_uniform_buffer_offset_alignment : Nat

/-- `ash::vk::Extent2D`: width and height of the render target. -/
structure Extent2D where
  width : Nat
  height : Nat

/-- A host-waitable fence.  `signaled` is the only state the claims
observe; a fence created with `vk::FenceCreateFlags::SIGNALED` starts
signaled. -/
structure Fence where
  signaled : Bool

/-- Models `vkWaitForFences` on a single fence: the host wait returns
immediately (without blocking) exactly when the fence is already
signaled. -/
def Fence.wait_returns_immediately (f : Fence) : Bool :=
  f.signaled

/-- glm 3-component float vector, embedded over ℝ. -/
structure Vec3 where
  x : ℝ
  y : ℝ
  z : ℝ

/-- glm 4-component float vector, embedded over ℝ. -/
structure Vec4 where
  x : ℝ
  y : ℝ
  z : ℝ
  w : ℝ

def glm.vec3 (x y z : ℝ) : Vec3 := ⟨x, y, z⟩

def glm.vec4 (x y z w : ℝ) : Vec4 := ⟨x, y, z, w⟩

/-- Euclidean magnitude of a `Vec3` (glm `length`). -/
noncomputable def glm.norm3 (v : Vec3) : ℝ :=
  Real.sqrt (v.x * v.x + v.y * v.y + v.z * v.z)

/-- glm `normalize`: divide each component by the magnitude. -/
noncomputable def glm.normalize (v : Vec3) : Vec3 :=
  glm.vec3 (v.x / glm.norm3 v) (v.y / glm.norm3 v) (v.z / glm.norm3 v)

/-- glm `vec3_to_vec4`: pad with `w = 0`. -/
def glm.vec3_to_vec4 (v : Vec3) : Vec4 :=
  glm.vec4 v.x v.y v.z 0

/-- Modelled from the spec: `ModelDynamicUbo` is declared in
`structs.rs`, which is not under `src/`; §3 calls it the per-instance
transform record, so it is a 4×4 model matrix. -/
structure ModelDynamicUbo where
  model : Fin 4 → Fin 4 → ℝ

/-- `LightingUbo` is declared in `structs.rs` (not under `src/`); its
three fields are visible at the use site in
`FrameManager::create_lighting_buffer`. -/
structure LightingUbo where
  light_direction : Vec4
  light_color : Vec4
  ambient_light : Vec4

/-- Modelled from the spec: `AllocatedBuffer` lives in `buffer.rs`,
which is not under `src/`.  Per §6 it is "a GPU buffer of size S" whose
contents can be overwritten "with a typed sequence"; the device-memory
handle itself is opaque. -/
structure AllocatedBuffer (α : Type) where
  size : Nat
  contents : List α

/-- Modelled from the spec: `AllocatedBuffer::new` allocates a buffer of
the given byte size (§6); it starts with no typed contents written. -/
def AllocatedBuffer.new (α : Type) (buffer_size : Nat) : AllocatedBuffer α :=
  { size := buffer_size, contents := [] }

/-- Modelled from the spec: `AllocatedBuffer::update_buffer` overwrites
the buffer contents with a typed sequence (§6).  It performs no capacity
check and reports no error. -/
def AllocatedBuffer.update_buffer (b : AllocatedBuffer α) (data : List α) :
    AllocatedBuffer α :=
  { b with contents := data }

/-- Image formats used by `FrameManager::create_images`. -/
inductive Format where
  | R16G16B16A16_SFLOAT
  | R16G16B16A16_SNORM
  | D32_SFLOAT
deriving DecidableEq

/-- An allocated 2D image.  The embedding records the dimensions and
format requested from the allocator; tiling, usage flags and the memory
handle are opaque external state. -/
structure AllocatedImage where
  width : Nat
  height : Nat
  format : Format

/-- Per-slot resource bundle `FrameData`.  The two semaphores, the
camera buffer, the four samplers and the two descriptor sets of the
source struct are opaque external handles with no state observed by any
claim and are omitted. -/
structure FrameData where
  render_fence : Fence
  command_buffer : Nat
  model_dynamic_buffer : AllocatedBuffer ModelDynamicUbo
  lighting_buffer : AllocatedBuffer LightingUbo
  albedo_image : AllocatedImage
  normal_image : AllocatedImage
  depth_image : AllocatedImage
  shadow_map_image : AllocatedImage
  draw_image : AllocatedImage

/-- `FrameData::update_model_dynamic_buffer`: forwards the supplied
records to `update_buffer` unconditionally — no validation against the
capacity reserved at construction, no error return. -/
def FrameData.update_model_dynamic_buffer (fd : FrameData)
    (mvp : List ModelDynamicUbo) : FrameData :=
  { fd with model_dynamic_buffer := fd.model_dynamic_buffer.update_buffer mvp }

/-- `FrameManager`: the ring of per-frame resource bundles.  The
descriptor manager and the two pipeline handles of the source struct
are opaque external objects (their constructors are not under `src/`)
and are omitted. -/
structure FrameManager where
  frames : List FrameData
  current_frame : Nat
  frame_count : Nat
  model_ubo_alignment : Nat

/-- `FrameManager::advance_frame`:
`self.current_frame = (self.current_frame + 1) % self.frame_count`. -/
def FrameManager.advance_frame (fm : FrameManager) : FrameManager :=
  { fm with current_frame := (fm.current_frame + 1) % fm.frame_count }

/-- Iterated `advance_frame`. -/
def FrameManager.advanceN (fm : FrameManager) : Nat → FrameManager
  | 0 => fm
  | k + 1 => (fm.advanceN k).advance_frame

/-- `FrameManager::get_current_frame`: indexes `frames` at
`current_frame`; the Rust indexing panics out of bounds, modelled by
`Option`. -/
def FrameManager.get_current_frame (fm : FrameManager) : Option FrameData :=
  fm.frames.get? fm.current_frame

/-- `FrameManager::get_mut_current_frame` hands the caller a mutable
reference to the slot at `current_frame`; a mutation through that
reference replaces the slot, modelled as an explicit store. -/
def FrameManager.set_current_frame_data (fm : FrameManager) (fd : FrameData) :
    FrameManager :=
  { fm with frames := fm.frames.set fm.current_frame fd }

/-- `FrameManager::create_command_buffers`: allocates
`MAX_FRAMES_IN_FLIGHT` primary command buffers from the shared pool.
`MAX_FRAMES_IN_FLIGHT` is a constant imported from `constants.rs` (not
under `src/`), so its value is a parameter here; the returned handles
are represented by their allocation indices. -/
def create_command_buffers (maxFramesInFlight : Nat) : List Nat :=
  List.range maxFramesInFlight

/-- Modelled from the spec: `get_buffer_alignment` lives in `utils.rs`,
which is not under `src/`.  Per §3, the stride is the "smallest multiple
of the device's minimum uniform-buffer offset alignment that is ≥
sizeof(per-instance record)".  The generic size argument
`mem::size_of::<T>()` is passed explicitly. -/
def get_buffer_alignment (sizeofT : Nat) (device_info : DeviceInfo) : Nat :=
  if device_info.min_uniform_buffer_offset_alignment = 0 then sizeofT
  else (sizeofT + device_info.min_uniform_buffer_offset_alignment - 1) /
    device_info.min_uniform_buffer_offset_alignment *
    device_info.min_uniform_buffer_offset_alignment

/-- `FrameManager::create_model_dynamic_uniform_buffer`: allocates a
buffer of `dynamic_alignment * mesh_count` bytes (the device handle is
consumed only by the allocator). -/
def create_model_dynamic_uniform_buffer (_device_info : DeviceInfo)
    (mesh_count : Nat) (dynamic_alignment : Nat) :
    AllocatedBuffer ModelDynamicUbo :=
  AllocatedBuffer.new ModelDynamicUbo (dynamic_alignment * mesh_count)

/-- `FrameManager::create_lighting_buffer`: allocates a one-record
buffer of `mem::size_of::<LightingUbo>()` bytes (the size constant comes
from `structs.rs`, not under `src/`, so it is a parameter) and seeds it
with the default directional light. -/
noncomputable def create_lighting_buffer (sizeofLightingUbo : Nat) :
    AllocatedBuffer LightingUbo :=
  let buffer := AllocatedBuffer.new LightingUbo sizeofLightingUbo
  let light_dir := glm.normalize (glm.vec3 (-1) (-1) (-1))
  buffer.update_buffer [{ light_direction := glm.vec3_to_vec4 light_dir,
                          light_color := glm.vec4 1 1 0 2,
                          ambient_light := glm.vec4 0.1 0.1 0.1 0.2 }]

/-- `FrameManager::create_images`: albedo, normal, depth and draw
images at the requested extent; the shadow map at a hardcoded
2048×2048. -/
def create_images (_device_info : DeviceInfo)
    (image_width image_height : Nat) :
    AllocatedImage × AllocatedImage × AllocatedImage × AllocatedImage ×
      AllocatedImage :=
  let albedo_image : AllocatedImage :=
    ⟨image_width, image_height, Format.R16G16B16A16_SFLOAT⟩
  let normal_image : AllocatedImage :=
    ⟨image_width, image_height, Format.R16G16B16A16_SNORM⟩
  let depth_image : AllocatedImage :=
    ⟨image_width, image_height, Format.D32_SFLOAT⟩
  let shadow_map_image : AllocatedImage :=
    ⟨2048, 2048, Format.D32_SFLOAT⟩
  let draw_image : AllocatedImage :=
    ⟨image_width, image_height, Format.R16G16B16A16_SFLOAT⟩
  (albedo_image, normal_image, depth_image, shadow_map_image, draw_image)

/-- `FrameManager::create_sync_objects`: the two semaphores are
device-side handles with no host-observable state; the fence is created
with `vk::FenceCreateFlags::SIGNALED`, so it starts signaled. -/
def create_sync_objects : Fence :=
  { signaled := true }

/-- The per-slot body of the construction loop in `FrameManager::new`:
builds one `FrameData` from the shared inputs and the slot's command
buffer.  The descriptor-set creation and update calls of the source are
external effects with no claim-relevant state. -/
noncomputable def mk_frame_data (device_info : DeviceInfo)
    (image_width image_height mesh_count model_ubo_alignment
      sizeofLightingUbo command_buffer : Nat) : FrameData :=
  let render_fence := create_sync_objects
  let model_dynamic_buffer :=
    create_model_dynamic_uniform_buffer device_info mesh_count
      model_ubo_alignment
  let lighting_buffer := create_lighting_buffer sizeofLightingUbo
  let images := create_images device_info image_width image_height
  { render_fence := render_fence,
    command_buffer := command_buffer,
    model_dynamic_buffer := model_dynamic_buffer,
    lighting_buffer := lighting_buffer,
    albedo_image := images.1,
    normal_image := images.2.1,
    depth_image := images.2.2.1,
    shadow_map_image := images.2.2.2.1,
    draw_image := images.2.2.2.2 }

/-- `FrameManager::new`.  The loop indexes `command_buffers[frame]` for
every `frame < max_frames`, which panics exactly when `max_frames`
exceeds the allocated count; the guard models that panic as `none`.
`maxFramesInFlight` is the imported constant `MAX_FRAMES_IN_FLIGHT`, and
`sizeofModelDynamicUbo` / `sizeofLightingUbo` stand for the
`mem::size_of` constants of the record types from `structs.rs`. -/
noncomputable def FrameManager.new (maxFramesInFlight : Nat)
    (device_info : DeviceInfo) (max_frames : Nat) (extent2d : Extent2D)
    (mesh_count : Nat) (sizeofModelDynamicUbo sizeofLightingUbo : Nat) :
    Option FrameManager :=
  let image_width := extent2d.width
  let image_height := extent2d.height
  let command_buffers := create_command_buffers maxFramesInFlight
  let model_ubo_alignment :=
    get_buffer_alignment sizeofModelDynamicUbo device_info
  if max_frames ≤ command_buffers.length then
    some { frames := (List.range max_frames).map (fun frame =>
             mk_frame_data device_info image_width image_height mesh_count
               model_ubo_alignment sizeofLightingUbo
               (command_buffers.getD frame 0)),
           current_frame := 0,
           frame_count := max_frames,
           model_ubo_alignment := model_ubo_alignment }
  else none

/-! ### Inversion and iteration lemmas for the embedded constructor -/

theorem FrameManager.new_eq_some {c mf mc S L : Nat} {dev : DeviceInfo}
    {ext : Extent2D} {fm : FrameManager}
    (h : FrameManager.new c dev mf ext mc S L = some fm) :
    mf ≤ c ∧ fm.current_frame = 0 ∧ fm.frame_count = mf ∧
      fm.model_ubo_alignment = get_buffer_alignment S dev ∧
      fm.frames = (List.range mf).map (fun frame =>
        mk_frame_data dev ext.width ext.height mc
          (get_buffer_alignment S dev) L ((List.range c).getD frame 0)) := by
  simp only [FrameManager.new, create_command_buffers, List.length_range] at h
  split at h
  next hc =>
    rw [Option.some.injEq] at h
    subst h
    exact ⟨hc, rfl, rfl, rfl, rfl⟩
  next hc => exact absurd h (by simp)

theorem FrameManager.new_frames_get? {c mf mc S L : Nat} {dev : DeviceInfo}
    {ext : Extent2D} {fm : FrameManager} {i : Nat} {fd : FrameData}
    (h : FrameManager.new c dev mf ext mc S L = some fm)
    (hget : fm.frames.get? i = some fd) :
    i < mf ∧ fd = mk_frame_data dev ext.width ext.height mc
      (get_buffer_alignment S dev) L i := by
  obtain ⟨hc, -, -, -, hframes⟩ := FrameManager.new_eq_some h
  rw [hframes] at hget
  have hi : i < mf := by
    have hl := (List.get?_eq_some.mp hget).1
    simpa using hl
  have hcb : (List.range c).getD i 0 = i := by
    rw [List.getD_eq_get?, List.get?_range (lt_of_lt_of_le hi hc)]
    rfl
  rw [List.get?_map, List.get?_range hi, Option.map_some',
    Option.some.injEq] at hget
  rw [hcb] at hget
  exact ⟨hi, hget.symm⟩

theorem FrameManager.advanceN_frame_count (fm : FrameManager) (k : Nat) :
    (fm.advanceN k).frame_count = fm.frame_count := by
  induction k with
  | zero => rfl
  | succ k ih => simpa [FrameManager.advanceN, FrameManager.advance_frame] using ih

theorem FrameManager.advanceN_current_frame (fm : FrameManager) (k : Nat)
    (h : fm.current_frame = 0) :
    (fm.advanceN k).current_frame = k % fm.frame_count := by
  induction k with
  | zero => simp [FrameManager.advanceN, h]
  | succ k ih =>
    have hstep : (fm.advanceN (k + 1)).current_frame
        = ((fm.advanceN k).current_frame + 1) % (fm.advanceN k).frame_count := rfl
    rw [hstep, ih, FrameManager.advanceN_frame_count]
    conv_rhs => rw [Nat.add_mod]
    simp

/-! ### Concrete instances used by the witnesses -/

def dev0 : DeviceInfo := ⟨16⟩

def ext0 : Extent2D := ⟨100, 200⟩

noncomputable def fm0 : FrameManager :=
  (FrameManager.new 2 dev0 2 ext0 5 60 48).get (by decide)

noncomputable def fd0 : FrameData := mk_frame_data dev0 100 200 5 64 48 0

/-! ### Claims C1 and C2: the ring index -/

/-- C1: for every `frame_count ≥ 1`, the current index starts at 0 at
construction, each `advance` sets it to `(current + 1) mod frame_count`,
and after `k` advances the index is `k % frame_count`, hence it cycles
through `[0, frame_count)` in order and returns to 0 every
`frame_count` calls. -/
theorem c1_advance_frame_cycles
    (c : Nat) (dev : DeviceInfo) (mf : Nat) (ext : Extent2D) (mc S L : Nat)
    (fm fm' : FrameManager) (k : Nat)
    (hmf : 1 ≤ mf)
    (h : FrameManager.new c dev mf ext mc S L = some fm) :
    fm.current_frame = 0 ∧
    fm'.advance_frame.current_frame = (fm'.current_frame + 1) % fm'.frame_count ∧
    (fm.advanceN k).current_frame = k % mf ∧
    (fm.advanceN k).current_frame < mf ∧
    (fm.advanceN mf).current_frame = 0 := by
  obtain ⟨-, hcur, hcount, -, -⟩ := FrameManager.new_eq_some h
  refine ⟨hcur, rfl, ?_, ?_, ?_⟩
  · rw [FrameManager.advanceN_current_frame fm k hcur, hcount]
  · rw [FrameManager.advanceN_current_frame fm k hcur, hcount]
    exact Nat.mod_lt _ hmf
  · rw [FrameManager.advanceN_current_frame fm mf hcur, hcount, Nat.mod_self]

/-- C1 witness: concrete construction with `frame_count = 2`. -/
theorem c1_advance_frame_cycles_witness :
    (1 ≤ 2 ∧ FrameManager.new 2 dev0 2 ext0 5 60 48 = some fm0) ∧
    (fm0.current_frame = 0 ∧
     fm0.advance_frame.current_frame = (fm0.current_frame + 1) % fm0.frame_count ∧
     (fm0.advanceN 3).current_frame = 3 % 2 ∧
     (fm0.advanceN 3).current_frame < 2 ∧
     (fm0.advanceN 2).current_frame = 0) :=
  ⟨⟨by decide, (Option.some_get _).symm⟩,
   c1_advance_frame_cycles 2 dev0 2 ext0 5 60 48 fm0 fm0 3 (by decide)
     ((Option.some_get _).symm)⟩

/-- The invariant of the ring: at least one slot, the cursor in range,
and exactly `frame_count` slots. -/
def InvFM (fm : FrameManager) : Prop :=
  1 ≤ fm.frame_count ∧ fm.current_frame < fm.frame_count ∧
    fm.frames.length = fm.frame_count

/-- C2: `current_frame ∈ [0, frame_count)` holds after construction
with any `frame_count ≥ 1` and is preserved by `advance_frame`, by a
mutation through `get_mut_current_frame`, and by `get_current_frame`
(which moreover succeeds under the invariant). -/
theorem c2_current_frame_invariant
    (c : Nat) (dev : DeviceInfo) (mf : Nat) (ext : Extent2D) (mc S L : Nat)
    (fm fm' : FrameManager) (fd : FrameData)
    (hmf : 1 ≤ mf)
    (h : FrameManager.new c dev mf ext mc S L = some fm) :
    InvFM fm ∧
    (InvFM fm' → InvFM fm'.advance_frame) ∧
    (InvFM fm' → InvFM (fm'.set_current_frame_data fd)) ∧
    (InvFM fm' → fm'.get_current_frame.isSome = true) := by
  obtain ⟨-, hcur, hcount, -, hframes⟩ := FrameManager.new_eq_some h
  refine ⟨⟨?_, ?_, ?_⟩, ?_, ?_, ?_⟩
  · rw [hcount]; exact hmf
  · rw [hcur, hcount]; exact hmf
  · rw [hframes, hcount]; simp
  · rintro ⟨h1, h2, h3⟩
    exact ⟨h1, Nat.mod_lt _ h1, h3⟩
  · rintro ⟨h1, h2, h3⟩
    exact ⟨h1, h2, by
      simpa [FrameManager.set_current_frame_data, List.length_set] using h3⟩
  · rintro ⟨h1, h2, h3⟩
    have hl : fm'.current_frame < fm'.frames.length := by
      rw [h3]; exact h2
    rw [FrameManager.get_current_frame, List.get?_eq_get hl]
    rfl

/-- C2 witness: concrete construction with `frame_count = 2`. -/
theorem c2_current_frame_invariant_witness :
    (1 ≤ 2 ∧ FrameManager.new 2 dev0 2 ext0 5 60 48 = some fm0) ∧
    (InvFM fm0 ∧
     (InvFM fm0 → InvFM fm0.advance_frame) ∧
     (InvFM fm0 → InvFM (fm0.set_current_frame_data fd0)) ∧
     (InvFM fm0 → fm0.get_current_frame.isSome = true)) :=
  ⟨⟨by decide, (Option.some_get _).symm⟩,
   c2_current_frame_invariant 2 dev0 2 ext0 5 60 48 fm0 fm0 fd0 (by decide)
     ((Option.some_get _).symm)⟩

/-! ### Claim C3: command-buffer allocation count -/

/-- C3 counterexample: `create_command_buffers` requests
`MAX_FRAMES_IN_FLIGHT` handles, a constant independent of the
`max_frames` argument of `FrameManager::new`, so no value of that
constant makes the allocation count equal `maxFrames` for every
`maxFrames ≥ 1`. -/
theorem c3_counterexample :
    ¬ ∃ maxFramesInFlight : Nat, ∀ m : Nat, 1 ≤ m →
      (create_command_buffers maxFramesInFlight).length = m := by
  rintro ⟨c, hc⟩
  have h1 := hc (c + 1) (by omega)
  simp [create_command_buffers] at h1

/-- C3 amended: construction allocates exactly `MAX_FRAMES_IN_FLIGHT`
command-recording handles — a fixed constant, not the `maxFrames`
argument; the count equals `maxFrames` exactly when
`maxFrames = MAX_FRAMES_IN_FLIGHT`; construction completes only when
`maxFrames ≤ MAX_FRAMES_IN_FLIGHT`, and then each of the `maxFrames`
ring slots holds its own handle (slot `i` the `i`-th one). -/
theorem c3_amended_command_buffer_allocation
    (c : Nat) (dev : DeviceInfo) (mf : Nat) (ext : Extent2D) (mc S L : Nat)
    (fm : FrameManager) (i : Nat) (fd : FrameData)
    (h : FrameManager.new c dev mf ext mc S L = some fm)
    (hget : fm.frames.get? i = some fd) :
    (create_command_buffers c).length = c ∧
    ((create_command_buffers c).length = mf ↔ mf = c) ∧
    mf ≤ c ∧
    fm.frames.length = mf ∧
    fd.command_buffer = i := by
  obtain ⟨hc, -, -, -, hframes⟩ := FrameManager.new_eq_some h
  obtain ⟨hi, hfd⟩ := FrameManager.new_frames_get? h hget
  refine ⟨by simp [create_command_buffers],
    by simp [create_command_buffers, eq_comm], hc, ?_, ?_⟩
  · rw [hframes]; simp
  · rw [hfd]; rfl

/-- C3 witness: `MAX_FRAMES_IN_FLIGHT = 2`, `maxFrames = 2`, slot 0. -/
theorem c3_amended_command_buffer_allocation_witness :
    (FrameManager.new 2 dev0 2 ext0 5 60 48 = some fm0 ∧
     fm0.frames.get? 0 = some fd0) ∧
    ((create_command_buffers 2).length = 2 ∧
     ((create_command_buffers 2).length = 2 ↔ 2 = 2) ∧
     2 ≤ 2 ∧
     fm0.frames.length = 2 ∧
     fd0.command_buffer = 0) :=
  ⟨⟨(Option.some_get _).symm, rfl⟩,
   c3_amended_command_buffer_allocation 2 dev0 2 ext0 5 60 48 fm0 0 fd0
     ((Option.some_get _).symm) rfl⟩

/-! ### Claim C4: dynamic-buffer stride and size -/

theorem get_buffer_alignment_dvd (S : Nat) (dev : DeviceInfo)
    (hA : 0 < dev.min_uniform_buffer_offset_alignment) :
    dev.min_uniform_buffer_offset_alignment ∣ get_buffer_alignment S dev := by
  obtain ⟨A⟩ := dev
  simp only [get_buffer_alignment] at *
  rw [if_neg (Nat.pos_iff_ne_zero.mp hA)]
  exact dvd_mul_left _ _

theorem get_buffer_alignment_le (S : Nat) (dev : DeviceInfo)
    (hA : 0 < dev.min_uniform_buffer_offset_alignment) :
    S ≤ get_buffer_alignment S dev := by
  obtain ⟨A⟩ := dev
  simp only [get_buffer_alignment] at *
  rw [if_neg (Nat.pos_iff_ne_zero.mp hA)]
  rcases Nat.eq_zero_or_pos S with hS | hS
  · omega
  · obtain ⟨s, rfl⟩ : ∃ s, S = s + 1 := ⟨S - 1, by omega⟩
    have h1 : s + 1 + A - 1 = s + A := by omega
    rw [h1, Nat.add_div_right s hA, Nat.add_mul, Nat.one_mul]
    have h2 := Nat.div_add_mod s A
    have h3 := Nat.mod_lt s hA
    have key : s + 1 ≤ A * (s / A) + A := by
      have h5 : ∀ X r : Nat, X + r = s → r < A → s + 1 ≤ X + A := by
        intro X r hX hlt
        omega
      exact h5 _ _ h2 h3
    calc s + 1 ≤ A * (s / A) + A := key
      _ = s / A * A + A := by rw [Nat.mul_comm]

theorem get_buffer_alignment_min (S t : Nat) (dev : DeviceInfo)
    (hA : 0 < dev.min_uniform_buffer_offset_alignment)
    (hdvd : dev.min_uniform_buffer_offset_alignment ∣ t) (hSt : S ≤ t) :
    get_buffer_alignment S dev ≤ t := by
  obtain ⟨A⟩ := dev
  simp only [get_buffer_alignment] at *
  rw [if_neg (Nat.pos_iff_ne_zero.mp hA)]
  obtain ⟨k, rfl⟩ := hdvd
  have h1 : (S + A - 1) / A ≤ k := by
    rw [Nat.div_le_iff_le_mul_add_pred hA]
    have h5 : ∀ X : Nat, S ≤ X → S + A - 1 ≤ X + (A - 1) := by
      intro X hX
      omega
    exact h5 _ hSt
  calc (S + A - 1) / A * A ≤ k * A := Nat.mul_le_mul_right A h1
    _ = A * k := Nat.mul_comm _ _

theorem get_buffer_alignment_eq_iff (S : Nat) (dev : DeviceInfo)
    (hA : 0 < dev.min_uniform_buffer_offset_alignment) :
    get_buffer_alignment S dev = S ↔
      dev.min_uniform_buffer_offset_alignment ∣ S := by
  constructor
  · intro h
    have hd := get_buffer_alignment_dvd S dev hA
    rwa [h] at hd
  · intro hdvd
    obtain ⟨A⟩ := dev
    simp only [get_buffer_alignment] at *
    rw [if_neg (Nat.pos_iff_ne_zero.mp hA)]
    obtain ⟨m, rfl⟩ := hdvd
    have h1 : A * m + A - 1 = A * m + (A - 1) := by omega
    rw [h1, Nat.mul_add_div hA, Nat.div_eq_of_lt (by omega), Nat.add_zero,
      Nat.mul_comm]

/-- C4: for every slot the dynamic buffer is allocated with
`stride × mesh_count` bytes, where `stride` (computed once and stored as
`model_ubo_alignment`) is the smallest multiple of the device's minimum
uniform-buffer offset alignment that is ≥ `sizeof(ModelDynamicUbo)`,
with equality exactly when that size is already a multiple of the
alignment. -/
theorem c4_dynamic_buffer_stride
    (c : Nat) (dev : DeviceInfo) (mf : Nat) (ext : Extent2D) (mc S L t : Nat)
    (fm : FrameManager) (i : Nat) (fd : FrameData)
    (hA : 0 < dev.min_uniform_buffer_offset_alignment)
    (h : FrameManager.new c dev mf ext mc S L = some fm)
    (hget : fm.frames.get? i = some fd) :
    fm.model_ubo_alignment = get_buffer_alignment S dev ∧
    fd.model_dynamic_buffer.size = get_buffer_alignment S dev * mc ∧
    S ≤ get_buffer_alignment S dev ∧
    dev.min_uniform_buffer_offset_alignment ∣ get_buffer_alignment S dev ∧
    (dev.min_uniform_buffer_offset_alignment ∣ t → S ≤ t →
      get_buffer_alignment S dev ≤ t) ∧
    (get_buffer_alignment S dev = S ↔
      dev.min_uniform_buffer_offset_alignment ∣ S) := by
  obtain ⟨-, -, -, halign, -⟩ := FrameManager.new_eq_some h
  obtain ⟨-, hfd⟩ := FrameManager.new_frames_get? h hget
  refine ⟨halign, ?_, get_buffer_alignment_le S dev hA,
    get_buffer_alignment_dvd S dev hA,
    fun h1 h2 => get_buffer_alignment_min S t dev hA h1 h2,
    get_buffer_alignment_eq_iff S dev hA⟩
  rw [hfd]
  rfl

/-- C4 witness: device alignment 16, record size 60 (stride 64),
`mesh_count = 5`, slot 0 of a concrete construction. -/
theorem c4_dynamic_buffer_stride_witness :
    (0 < dev0.min_uniform_buffer_offset_alignment ∧
     FrameManager.new 2 dev0 2 ext0 5 60 48 = some fm0 ∧
     fm0.frames.get? 0 = some fd0) ∧
    (fm0.model_ubo_alignment = get_buffer_alignment 60 dev0 ∧
     fd0.model_dynamic_buffer.size = get_buffer_alignment 60 dev0 * 5 ∧
     60 ≤ get_buffer_alignment 60 dev0 ∧
     dev0.min_uniform_buffer_offset_alignment ∣ get_buffer_alignment 60 dev0 ∧
     (dev0.min_uniform_buffer_offset_alignment ∣ 64 → 60 ≤ 64 →
       get_buffer_alignment 60 dev0 ≤ 64) ∧
     (get_buffer_alignment 60 dev0 = 60 ↔
       dev0.min_uniform_buffer_offset_alignment ∣ 60)) :=
  ⟨⟨by decide, (Option.some_get _).symm, rfl⟩,
   c4_dynamic_buffer_stride 2 dev0 2 ext0 5 60 48 64 fm0 0 fd0 (by decide)
     ((Option.some_get _).symm) rfl⟩

/-! ### Claim C5: default lighting content -/

/-- C5: for every slot, before any lighting update, the lighting buffer
holds exactly one record: direction `normalize(-1,-1,-1)` (of unit
magnitude), color `(1,1,0)` with intensity `2.0` in the fourth
component, ambient `(0.1,0.1,0.1)` with intensity `0.2` in the fourth
component; the record is written at construction from fixed constants,
no scene input being among the constructor's arguments. -/
theorem c5_default_lighting
    (c : Nat) (dev : DeviceInfo) (mf : Nat) (ext : Extent2D) (mc S L : Nat)
    (fm : FrameManager) (i : Nat) (fd : FrameData)
    (h : FrameManager.new c dev mf ext mc S L = some fm)
    (hget : fm.frames.get? i = some fd) :
    fd.lighting_buffer.contents =
      [{ light_direction :=
           glm.vec3_to_vec4 (glm.normalize (glm.vec3 (-1) (-1) (-1))),
         light_color := glm.vec4 1 1 0 2,
         ambient_light := glm.vec4 0.1 0.1 0.1 0.2 }] ∧
    glm.norm3 (glm.normalize (glm.vec3 (-1) (-1) (-1))) = 1 := by
  obtain ⟨-, hfd⟩ := FrameManager.new_frames_get? h hget
  refine ⟨by rw [hfd]; rfl, ?_⟩
  have h3 : Real.sqrt 3 * Real.sqrt 3 = 3 := Real.mul_self_sqrt (by norm_num)
  have hpos : (0:ℝ) < Real.sqrt 3 := Real.sqrt_pos.mpr (by norm_num)
  have hne : Real.sqrt 3 ≠ 0 := ne_of_gt hpos
  have hn : glm.norm3 ⟨-1, -1, -1⟩ = Real.sqrt 3 := by
    simp only [glm.norm3]
    norm_num
  have hcomp : glm.normalize (glm.vec3 (-1) (-1) (-1)) =
      glm.vec3 (-1 / Real.sqrt 3) (-1 / Real.sqrt 3) (-1 / Real.sqrt 3) := by
    simp only [glm.normalize, glm.vec3, hn]
  rw [hcomp]
  have harg : -1 / Real.sqrt 3 * (-1 / Real.sqrt 3)
      + -1 / Real.sqrt 3 * (-1 / Real.sqrt 3)
      + -1 / Real.sqrt 3 * (-1 / Real.sqrt 3) = 1 := by
    field_simp
    linarith [h3]
  simp only [glm.norm3, glm.vec3]
  rw [harg, Real.sqrt_one]

/-- C5 witness: slot 0 of a concrete construction. -/
theorem c5_default_lighting_witness :
    (FrameManager.new 2 dev0 2 ext0 5 60 48 = some fm0 ∧
     fm0.frames.get? 0 = some fd0) ∧
    (fd0.lighting_buffer.contents =
      [{ light_direction :=
           glm.vec3_to_vec4 (glm.normalize (glm.vec3 (-1) (-1) (-1))),
         light_color := glm.vec4 1 1 0 2,
         ambient_light := glm.vec4 0.1 0.1 0.1 0.2 }] ∧
     glm.norm3 (glm.normalize (glm.vec3 (-1) (-1) (-1))) = 1) :=
  ⟨⟨(Option.some_get _).symm, rfl⟩,
   c5_default_lighting 2 dev0 2 ext0 5 60 48 fm0 0 fd0
     ((Option.some_get _).symm) rfl⟩

/-! ### Claim C6: image extents -/

/-- C6: for every target extent, each slot's shadow-map image is
allocated at exactly 2048×2048, while the albedo, normal, depth and
draw images are allocated at exactly the target's width and height. -/
theorem c6_image_extents
    (c : Nat) (dev : DeviceInfo) (mf : Nat) (ext : Extent2D) (mc S L : Nat)
    (fm : FrameManager) (i : Nat) (fd : FrameData)
    (h : FrameManager.new c dev mf ext mc S L = some fm)
    (hget : fm.frames.get? i = some fd) :
    fd.shadow_map_image.width = 2048 ∧ fd.shadow_map_image.height = 2048 ∧
    fd.albedo_image.width = ext.width ∧ fd.albedo_image.height = ext.height ∧
    fd.normal_image.width = ext.width ∧ fd.normal_image.height = ext.height ∧
    fd.depth_image.width = ext.width ∧ fd.depth_image.height = ext.height ∧
    fd.draw_image.width = ext.width ∧ fd.draw_image.height = ext.height := by
  obtain ⟨-, hfd⟩ := FrameManager.new_frames_get? h hget
  subst hfd
  exact ⟨rfl, rfl, rfl, rfl, rfl, rfl, rfl, rfl, rfl, rfl⟩

/-- C6 witness: extent 100×200, slot 0 of a concrete construction. -/
theorem c6_image_extents_witness :
    (FrameManager.new 2 dev0 2 ext0 5 60 48 = some fm0 ∧
     fm0.frames.get? 0 = some fd0) ∧
    (fd0.shadow_map_image.width = 2048 ∧ fd0.shadow_map_image.height = 2048 ∧
     fd0.albedo_image.width = ext0.width ∧
     fd0.albedo_image.height = ext0.height ∧
     fd0.normal_image.width = ext0.width ∧
     fd0.normal_image.height = ext0.height ∧
     fd0.depth_image.width = ext0.width ∧
     fd0.depth_image.height = ext0.height ∧
     fd0.draw_image.width = ext0.width ∧
     fd0.draw_image.height = ext0.height) :=
  ⟨⟨(Option.some_get _).symm, rfl⟩,
   c6_image_extents 2 dev0 2 ext0 5 60 48 fm0 0 fd0
     ((Option.some_get _).symm) rfl⟩

/-! ### Claim C7: unchecked dynamic-buffer update -/

/-- C7: `update_model_dynamic_buffer` performs no validation of the
record count against the capacity reserved at construction: even when
the input holds strictly more than `mesh_count` records, the records
are written verbatim and no error is signalled (the operation is a
total function into `FrameData`, with no error channel in its type). -/
theorem c7_dynamic_update_unchecked
    (fd : FrameData) (mvp : List ModelDynamicUbo) (mesh_count stride : Nat)
    (hsize : fd.model_dynamic_buffer.size = stride * mesh_count)
    (hover : mesh_count < mvp.length) :
    (fd.update_model_dynamic_buffer mvp).model_dynamic_buffer.contents = mvp ∧
    (fd.update_model_dynamic_buffer mvp).model_dynamic_buffer.size =
      fd.model_dynamic_buffer.size :=
  ⟨rfl, rfl⟩

/-- Six records, one more than the capacity reserved by the concrete
construction below. -/
noncomputable def mvp0 : List ModelDynamicUbo :=
  List.replicate 6 (ModelDynamicUbo.mk fun _ _ => 0)

/-- C7 witness: a slot whose dynamic buffer was reserved for 5 records
at stride 64, updated with 6 records. -/
theorem c7_dynamic_update_unchecked_witness :
    (fd0.model_dynamic_buffer.size = 64 * 5 ∧ 5 < mvp0.length) ∧
    ((fd0.update_model_dynamic_buffer mvp0).model_dynamic_buffer.contents
        = mvp0 ∧
     (fd0.update_model_dynamic_buffer mvp0).model_dynamic_buffer.size =
       fd0.model_dynamic_buffer.size) :=
  ⟨⟨rfl, by decide⟩, c7_dynamic_update_unchecked fd0 mvp0 5 64 rfl (by decide)⟩

/-! ### Claim C10: fences start signaled -/

/-- C10: `create_sync_objects` creates the completion fence with the
SIGNALED flag, so every slot's fence starts signaled and the very first
host wait on it returns immediately, before any submission. -/
theorem c10_fence_starts_signaled
    (c : Nat) (dev : DeviceInfo) (mf : Nat) (ext : Extent2D) (mc S L : Nat)
    (fm : FrameManager) (i : Nat) (fd : FrameData)
    (h : FrameManager.new c dev mf ext mc S L = some fm)
    (hget : fm.frames.get? i = some fd) :
    create_sync_objects.signaled = true ∧
    fd.render_fence.signaled = true ∧
    fd.render_fence.wait_returns_immediately = true := by
  obtain ⟨-, hfd⟩ := FrameManager.new_frames_get? h hget
  subst hfd
  exact ⟨rfl, rfl, rfl⟩

/-- C10 witness: slot 0 of a concrete construction. -/
theorem c10_fence_starts_signaled_witness :
    (FrameManager.new 2 dev0 2 ext0 5 60 48 = some fm0 ∧
     fm0.frames.get? 0 = some fd0) ∧
    (create_sync_objects.signaled = true ∧
     fd0.render_fence.signaled = true ∧
     fd0.render_fence.wait_returns_immediately = true) :=
  ⟨⟨(Option.some_get _).symm, rfl⟩,
   c10_fence_starts_signaled 2 dev0 2 ext0 5 60 48 fm0 0 fd0
     ((Option.some_get _).symm) rfl⟩

/-! ### Embedding of graphics_pipeline.rs -/

def FRAGMENT_SHADER : String := "frag"

def VERTEX_SHADER : String := "vert"

def SHADER_PATH : String := ".\\src\\shaders"

def SHADER_EXTENSION : String := ".spv"

/-- `Path::new(base).join(rel)`: the fixed shader directory joined with
a file name using the path separator (the `SHADER_PATH` literal is
Windows-style, so the backslash). -/
def path_join (base rel : String) : String :=
  base ++ "\\" ++ rel

/-- The file system seen by `fs::read`: maps a path to the file's bytes,
`none` meaning missing or unreadable. -/
def FileSystem : Type :=
  String → Option (List Nat)

/-- `PipelineInfo::read_shader_file`: reads the bytes at `SHADER_PATH`
joined with the logical shader name concatenated with the fixed
extension. -/
def read_shader_file (fs : FileSystem) (shader_name : String) :
    Option (List Nat) :=
  fs (path_join SHADER_PATH (shader_name ++ SHADER_EXTENSION))

inductive ShaderStage where
  | VERTEX
  | FRAGMENT
deriving DecidableEq

/-- A shader module: the device object is opaque, so the embedding keeps
the byte code handed to `create_shader_module` (whose device-side
failure mode is external to this subsystem). -/
structure ShaderModule where
  code : List Nat

def create_shader_module (code : List Nat) : ShaderModule :=
  ⟨code⟩

structure PipelineShaderStageCreateInfo where
  stage : ShaderStage
  module : ShaderModule
  name : String

inductive DynamicState where
  | VIEWPORT
  | SCISSOR
deriving DecidableEq

structure PipelineDynamicStateCreateInfo where
  dynamic_states : List DynamicState

inductive PrimitiveTopology where
  | TRIANGLE_LIST
  | TRIANGLE_STRIP
deriving DecidableEq

structure PipelineInputAssemblyStateCreateInfo where
  topology : PrimitiveTopology
  primitive_restart_enable : Bool

structure PipelineViewportStateCreateInfo where
  viewport_count : Nat
  scissor_count : Nat

inductive PolygonMode where
  | FILL
  | LINE
deriving DecidableEq

inductive CullModeFlags where
  | NONE
  | FRONT
  | BACK
deriving DecidableEq

inductive FrontFace where
  | CLOCKWISE
  | COUNTER_CLOCKWISE
deriving DecidableEq

structure PipelineRasterizationStateCreateInfo where
  depth_clamp_enable : Bool
  depth_bias_enable : Bool
  rasterizer_discard_enable : Bool
  polygon_mode : PolygonMode
  line_width : ℚ
  cull_mode : CullModeFlags
  front_face : FrontFace

inductive BlendFactor where
  | ONE
  | ZERO
deriving DecidableEq

inductive BlendOp where
  | ADD
deriving DecidableEq

inductive LogicOp where
  | COPY
deriving DecidableEq

inductive ColorComponentFlags where
  | RGBA
deriving DecidableEq

structure PipelineColorBlendAttachmentState where
  color_write_mask : ColorComponentFlags
  blend_enable : Bool
  src_color_blend_factor : BlendFactor
  dst_color_blend_factor : BlendFactor
  color_blend_op : BlendOp
  src_alpha_blend_factor : BlendFactor
  dst_alpha_blend_factor : BlendFactor
  alpha_blend_op : BlendOp

structure PipelineColorBlendStateCreateInfo where
  logic_op_enable : Bool
  logic_op : LogicOp
  attachments : List PipelineColorBlendAttachmentState

/-- The create info handed to `create_graphics_pipelines`.  The vertex
input state and the multisample state of the source are built from
external descriptions (`Vertex`, device sample counts) carried through
unchanged, with no content any claim observes, and are omitted. -/
structure GraphicsPipelineCreateInfo where
  stages : List PipelineShaderStageCreateInfo
  input_assembly_state : PipelineInputAssemblyStateCreateInfo
  viewport_state : PipelineViewportStateCreateInfo
  rasterization_state : PipelineRasterizationStateCreateInfo
  color_blend_state : PipelineColorBlendStateCreateInfo
  dynamic_state : PipelineDynamicStateCreateInfo
  subpass : Nat
  base_pipeline_index : Int

/-- `PipelineInfo`: the opaque `vk::Pipeline` handles are represented by
the create infos submitted to the device; the pipeline layout handle is
opaque external state and omitted. -/
structure PipelineInfo where
  graphics_pipelines : List GraphicsPipelineCreateInfo

/-- The `dynamic_states` array and its create info. -/
def dynamic_state_create_info : PipelineDynamicStateCreateInfo :=
  ⟨[DynamicState.VIEWPORT, DynamicState.SCISSOR]⟩

def input_assembly_create_info : PipelineInputAssemblyStateCreateInfo :=
  { topology := PrimitiveTopology.TRIANGLE_LIST,
    primitive_restart_enable := true }

def viewport_state_create_info : PipelineViewportStateCreateInfo :=
  { viewport_count := 1, scissor_count := 1 }

def rasterizer_create_info : PipelineRasterizationStateCreateInfo :=
  { depth_clamp_enable := false,
    depth_bias_enable := false,
    rasterizer_discard_enable := false,
    polygon_mode := PolygonMode.FILL,
    line_width := 1,
    cull_mode := CullModeFlags.BACK,
    front_face := FrontFace.CLOCKWISE }

def color_blend_attachment : PipelineColorBlendAttachmentState :=
  { color_write_mask := ColorComponentFlags.RGBA,
    blend_enable := false,
    src_color_blend_factor := BlendFactor.ONE,
    dst_color_blend_factor := BlendFactor.ZERO,
    color_blend_op := BlendOp.ADD,
    src_alpha_blend_factor := BlendFactor.ONE,
    dst_alpha_blend_factor := BlendFactor.ZERO,
    alpha_blend_op := BlendOp.ADD }

def color_blending_create_info : PipelineColorBlendStateCreateInfo :=
  { logic_op_enable := true,
    logic_op := LogicOp.COPY,
    attachments := [color_blend_attachment] }

/-- The assembled `GraphicsPipelineCreateInfo` of `PipelineInfo::new`,
as a function of the two shader stages. -/
def pipeline_create_info
    (shader_stages : List PipelineShaderStageCreateInfo) :
    GraphicsPipelineCreateInfo :=
  { stages := shader_stages,
    input_assembly_state := input_assembly_create_info,
    viewport_state := viewport_state_create_info,
    rasterization_state := rasterizer_create_info,
    color_blend_state := color_blending_create_info,
    dynamic_state := dynamic_state_create_info,
    subpass := 0,
    base_pipeline_index := -1 }

/-- Diagnostic of the `expect` on a failed vertex-shader read. -/
def vertexReadErr : String := "Unable to read vertex file"

/-- Diagnostic of the `expect` on a failed fragment-shader read. -/
def fragmentReadErr : String := "Unable to read fragment shader"

/-- `PipelineInfo::new`.  The `expect` calls on the two shader reads
terminate the process with a diagnostic, modelled as `Except.error`.
The device-side creation calls (shader modules, pipeline layout,
graphics pipelines) are external collaborators whose failures are
outside this subsystem (spec §1), so they succeed in the model; the
render-pass and device arguments carry no observed state and are
omitted. -/
def PipelineInfo.new (fs : FileSystem) : Except String PipelineInfo :=
  match read_shader_file fs VERTEX_SHADER with
  | none => Except.error vertexReadErr
  | some vert_shader_code =>
    match read_shader_file fs FRAGMENT_SHADER with
    | none => Except.error fragmentReadErr
    | some frag_shader_code =>
      let vert_shader_module := create_shader_module vert_shader_code
      let frag_shader_module := create_shader_module frag_shader_code
      let shader_name := "main"
      let shader_stages : List PipelineShaderStageCreateInfo :=
        [{ stage := ShaderStage.VERTEX, module := vert_shader_module,
           name := shader_name },
         { stage := ShaderStage.FRAGMENT, module := frag_shader_module,
           name := shader_name }]
      Except.ok { graphics_pipelines := [pipeline_create_info shader_stages] }

/-! ### Claim C8: shader loading and its failure mode -/

/-- C8: shader binaries are read from the fixed directory at the path
formed from the logical shader name and the fixed `.spv` extension;
`PipelineInfo::new` succeeds exactly when both shader files are
readable, and fails — terminating the process with a diagnostic,
modelled by `Except.error` — exactly when a shader file read fails,
the vertex diagnostic being raised exactly on a failed vertex read. -/
theorem c8_shader_loading (fs : FileSystem) (shader_name : String) :
    read_shader_file fs shader_name =
      fs (SHADER_PATH ++ "\\" ++ (shader_name ++ SHADER_EXTENSION)) ∧
    ((∃ p, PipelineInfo.new fs = Except.ok p) ↔
      (read_shader_file fs VERTEX_SHADER).isSome = true ∧
      (read_shader_file fs FRAGMENT_SHADER).isSome = true) ∧
    ((∃ e, PipelineInfo.new fs = Except.error e) ↔
      read_shader_file fs VERTEX_SHADER = none ∨
      read_shader_file fs FRAGMENT_SHADER = none) ∧
    (PipelineInfo.new fs = Except.error vertexReadErr ↔
      read_shader_file fs VERTEX_SHADER = none) := by
  refine ⟨rfl, ?_, ?_, ?_⟩ <;>
  · cases hv : read_shader_file fs VERTEX_SHADER <;>
      cases hf : read_shader_file fs FRAGMENT_SHADER <;>
        simp [PipelineInfo.new, hv, hf, vertexReadErr, fragmentReadErr]

/-! ### Claim C9: fixed-function pipeline state -/

/-- C9: the pipeline create info built by `PipelineInfo::new` has
triangle-list topology, back-face culling, clockwise front face,
blending disabled on its single color attachment, exactly one dynamic
viewport and one dynamic scissor, and targets subpass 0. -/
theorem c9_fixed_function_state
    (fs : FileSystem) (p : PipelineInfo) (ci : GraphicsPipelineCreateInfo)
    (h : PipelineInfo.new fs = Except.ok p)
    (hci : ci ∈ p.graphics_pipelines) :
    p.graphics_pipelines.length = 1 ∧
    ci.input_assembly_state.topology = PrimitiveTopology.TRIANGLE_LIST ∧
    ci.rasterization_state.cull_mode = CullModeFlags.BACK ∧
    ci.rasterization_state.front_face = FrontFace.CLOCKWISE ∧
    ci.color_blend_state.attachments = [color_blend_attachment] ∧
    color_blend_attachment.blend_enable = false ∧
    ci.viewport_state.viewport_count = 1 ∧
    ci.viewport_state.scissor_count = 1 ∧
    ci.dynamic_state.dynamic_states =
      [DynamicState.VIEWPORT, DynamicState.SCISSOR] ∧
    ci.subpass = 0 := by
  rcases hv : read_shader_file fs VERTEX_SHADER with _ | vc
  · simp [PipelineInfo.new, hv] at h
  rcases hf : read_shader_file fs FRAGMENT_SHADER with _ | fc
  · simp [PipelineInfo.new, hv, hf] at h
  simp only [PipelineInfo.new, hv, hf] at h
  rw [Except.ok.injEq] at h
  subst h
  simp only [List.mem_singleton] at hci
  subst hci
  exact ⟨rfl, rfl, rfl, rfl, rfl, rfl, rfl, rfl, rfl, rfl⟩

/-- A file system on which every read succeeds. -/
def fs0 : FileSystem :=
  fun _ => some [3]

def p0 : PipelineInfo :=
  (PipelineInfo.new fs0).toOption.get (by decide)

def ci0 : GraphicsPipelineCreateInfo :=
  p0.graphics_pipelines.getD 0 (pipeline_create_info [])

/-- C9 witness: the pipeline built over the concrete file system. -/
theorem c9_fixed_function_state_witness :
    (PipelineInfo.new fs0 = Except.ok p0 ∧ ci0 ∈ p0.graphics_pipelines) ∧
    (p0.graphics_pipelines.length = 1 ∧
     ci0.input_assembly_state.topology = PrimitiveTopology.TRIANGLE_LIST ∧
     ci0.rasterization_state.cull_mode = CullModeFlags.BACK ∧
     ci0.rasterization_state.front_face = FrontFace.CLOCKWISE ∧
     ci0.color_blend_state.attachments = [color_blend_attachment] ∧
     color_blend_attachment.blend_enable = false ∧
     ci0.viewport_state.viewport_count = 1 ∧
     ci0.viewport_state.scissor_count = 1 ∧
     ci0.dynamic_state.dynamic_states =
       [DynamicState.VIEWPORT, DynamicState.SCISSOR] ∧
     ci0.subpass = 0) :=
  ⟨⟨rfl, List.Mem.head _⟩,
   c9_fixed_function_state fs0 p0 ci0 rfl (List.Mem.head _)⟩
